import Mathlib

/-!
Verification development for the ovos coding-standard configuration package.

The package exports declarative linter and formatter configurations:
  - `src/eslint.ts` exports `customize`, building an ordered list of ESLint
    flat-config fragments from a caller-supplied options record;
  - `src/prettier.ts` exports a flat prettier options record;
  - the legacy tslint variants export a single document with `extends`,
    `rules` and `jsRules`, one of them deriving an import-ordering group
    list from the consuming project's manifest.

The development embeds these configuration values shallowly: each JS object
literal becomes a `JVal` tree or a Lean structure, object spread and
`Object.assign` become explicit last-write-wins merges, and the one piece of
string templating (the dependency regex) is paired with a small executable
model of the JS regex dialect it uses, so that pattern membership can be
evaluated on concrete strings.
-/

/-- JSON-like configuration values: the shapes a lint rule configuration can
take (severity strings, numbers, booleans, arrays, objects, regex literals). -/
inductive JVal where
  | null : JVal
  | bool (b : Bool) : JVal
  | num (n : Int) : JVal
  | str (s : String) : JVal
  /-- A JS regex literal appearing as a configuration value (stores its source text). -/
  | regex (source : String) : JVal
  | arr (elems : List JVal) : JVal
  | obj (fields : List (String × JVal)) : JVal

/-- Look a rule key up in an association list of rule entries, with the JS
object-literal semantics that a later binding of the same key shadows an
earlier one (object spread / repeated keys). -/
def lookupRule (rs : List (String × JVal)) (k : String) : Option JVal :=
  rs.foldl (fun acc p => if p.1 == k then some p.2 else acc) none

/-- A rules map: rule identifier to configuration value. -/
def RulesMap : Type := String → Option JVal

/-- The `Object.assign` merge on two rule maps: keys of the second argument
silently replace keys of the first; values are replaced wholesale, never
field-merged. -/
def objAssign (m1 m2 : RulesMap) : RulesMap :=
  fun k =>
    match m2 k with
    | some v => some v
    | none => m1 k

/-- View an association list of rule entries as a rules map. -/
def toMap (rs : List (String × JVal)) : RulesMap :=
  fun k => lookupRule rs k

/-- Atomic (non-nested) configuration values, for stating that a record is flat. -/
def isAtom : JVal → Bool
  | JVal.arr _ => false
  | JVal.obj _ => false
  | _ => true

/-! ## Formatter configuration (`src/prettier.ts`)

The exported `prettier.Options` record. -/

/-- The prettier options record exported by `src/prettier.ts`:
`printWidth: 100, singleQuote: true, trailingComma: 'es5'`. -/
def prettierConfig : List (String × JVal) :=
  [ ("printWidth", JVal.num 100),
    ("singleQuote", JVal.bool true),
    ("trailingComma", JVal.str "es5") ]

/-! ## Legacy tslint variant (first unnamed source file)

A single exported document: `extends`, a merged `rules` map, and a `jsRules`
map obtained by copying `rules` and deleting typescript-only rule keys.
The imported airbnb and react base rule sets are external packages, so the
merged map is parameterized over them. -/

/-- The authored override entries layered on top of the airbnb and react rule
sets in the legacy variant (object literal passed to `Object.assign`). -/
def legacyOverridesList : List (String × JVal) :=
  [ ("no-increment-decrement", JVal.bool false),
    ("no-unused-variable", JVal.bool true),
    ("align", JVal.bool false),
    ("whitespace", JVal.arr
      [ JVal.bool true, JVal.str "check-branch", JVal.str "check-decl",
        JVal.str "check-operator", JVal.str "check-preblock",
        JVal.str "check-separator", JVal.str "check-module" ]),
    ("trailing-comma", JVal.arr
      [ JVal.bool true,
        JVal.obj
          [ ("esSpecCompliant", JVal.bool true),
            ("multiline", JVal.obj
              [ ("objects", JVal.str "always"),
                ("arrays", JVal.str "always"),
                ("imports", JVal.str "always"),
                ("exports", JVal.str "always"),
                ("typeLiterals", JVal.str "always") ]),
            ("singleline", JVal.str "never") ] ]),
    ("max-line-length", JVal.bool false),
    ("ter-max-len", JVal.arr
      [ JVal.bool true, JVal.num 120, JVal.num 2,
        JVal.obj
          [ ("ignoreUrls", JVal.bool true),
            ("ignoreComments", JVal.bool true),
            ("ignoreRegExpLiterals", JVal.bool true),
            ("ignoreStrings", JVal.bool true),
            ("ignoreTemplateLiterals", JVal.bool true) ] ]),
    ("variable-name", JVal.bool false),
    ("no-this-assignment", JVal.arr
      [ JVal.bool true, JVal.obj [("allow-destructuring", JVal.bool true)] ]),
    ("import-name", JVal.bool false),
    ("object-shorthand-properties-first", JVal.bool false),
    ("jsx-no-multiline-js", JVal.bool false),
    ("no-console", JVal.bool true),
    ("no-unexpected-multiline", JVal.bool true),
    ("ter-arrow-body-style", JVal.arr [JVal.bool true, JVal.str "as needed"]),
    ("no-for-in-array", JVal.bool true) ]

/-- Merged rules of the legacy variant:
`Object.assign(\x7b\x7d, rulesAirbnb, rulesReact, overrides)`, with the two
imported base rule sets as parameters. -/
def legacyRules (rulesAirbnb rulesReact : RulesMap) : RulesMap :=
  objAssign (objAssign rulesAirbnb rulesReact) (toMap legacyOverridesList)

/-- The typescript-only rule keys deleted from the copied `jsRules` map. -/
def tsOnlyKeys : List String :=
  [ "prefer-array-literal", "no-function-constructor-with-string-args",
    "no-increment-decrement", "no-unused-variable",
    "no-boolean-literal-compare", "function-name", "import-name" ]

/-- The `jsRules` map of the legacy variant: a copy of the merged rules with
the typescript-only keys deleted. -/
def legacyJsRules (rulesAirbnb rulesReact : RulesMap) : RulesMap :=
  fun k => if tsOnlyKeys.contains k then none else legacyRules rulesAirbnb rulesReact k

/-- Shape of the legacy exported document. The source key `extends` is a Lean
keyword, so the field is named `extendsList`; `jsRules` matches the source. -/
structure RawConfigLegacy where
  extendsList : List String
  rules : RulesMap
  jsRules : RulesMap

/-- The document exported by the legacy variant. -/
def legacyConfig (rulesAirbnb rulesReact : RulesMap) : RawConfigLegacy :=
  { extendsList := ["tslint-config-airbnb", "tslint-react"],
    rules := legacyRules rulesAirbnb rulesReact,
    jsRules := legacyJsRules rulesAirbnb rulesReact }

/-! ## Import-order-aware legacy variant (second unnamed source file)

Reads the consuming project's manifest (modelled as an optional record of
dependency-name lists), derives a dependency regex and an import-group list,
and merges a larger override table over the same two base rule sets. -/

/-- The consuming project's `package.json`, reduced to the data the composer
reads: the declared dependency and devDependency names. `none` at the use
site models an absent manifest file. -/
structure PackageManifest where
  dependencies : List String := []
  devDependencies : List String := []

/-- Node core module table from `resolve/lib/core`: module name paired with
its enabled flag. The composer keeps enabled names not starting with `_`. -/
def coreModuleNames (coreModules : List (String × Bool)) : List String :=
  coreModules.foldl
    (fun acc p => if p.2 && !(p.1.startsWith "_") then acc ++ [p.1] else acc) []

/-- The regex source built for the built-in-modules import group:
an anchored alternation over the kept core module names. -/
def coreModulesRegex (coreModules : List (String × Bool)) : String :=
  "^(" ++ String.intercalate "|" (coreModuleNames coreModules) ++ ")$"

/-- The call `.replace(/\./g, '\\\\.')` of the source: every dot character is
replaced by the runtime value of the literal `'\\\\.'`, which is the
three-character string backslash-backslash-dot. -/
def replaceDotsDoubleEscaped (s : String) : String :=
  String.mk (s.toList.flatMap fun c => if c == '.' then "\\\\.".toList else [c])

/-- The dependency regex source: absent when the manifest is absent or
declares no dependencies; otherwise
`'^(' + dependencies.join('|').replace(/\./g, '\\\\.') + ')(/|$)'`. -/
def dependenciesRegexOf (manifest : Option PackageManifest) : Option String :=
  match manifest with
  | none => none
  | some pkg =>
    let dependencies := pkg.dependencies ++ pkg.devDependencies
    if dependencies.isEmpty then none
    else some ("^(" ++ replaceDotsDoubleEscaped (String.intercalate "|" dependencies) ++ ")(/|$)")

/-- One record of the `ordered-imports` group list. The source key `match` is
a Lean keyword, so the field is named `matchPattern`. -/
structure ImportGroup where
  name : String
  matchPattern : String
  order : Nat

/-- The import group list: the fixed groups plus, when the dependency regex
exists, the `dependencies` group; the `.filter(Boolean)` of the source drops
the dependency element when the regex is absent. -/
def importGroups (coreModules : List (String × Bool))
    (manifest : Option PackageManifest) : List ImportGroup :=
  [ { name := "aliased paths (which begin with tilde [~] in our convention)",
      matchPattern := "^~", order := 30 },
    { name := "parent directories", matchPattern := "^\\.\\.", order := 50 },
    { name := "current directory", matchPattern := "^\\.", order := 60 },
    { name := "built-in node modules",
      matchPattern := coreModulesRegex coreModules, order := 10 } ]
  ++ (match dependenciesRegexOf manifest with
      | some r => [{ name := "dependencies", matchPattern := r, order := 20 }]
      | none => [])
  ++ [ { name := "absolute imports", matchPattern := "\\.*", order := 40 } ]

/-- Import groups as the JSON value embedded in the `ordered-imports` rule. -/
def importGroupsJVal (coreModules : List (String × Bool))
    (manifest : Option PackageManifest) : JVal :=
  JVal.arr ((importGroups coreModules manifest).map fun g =>
    JVal.obj
      [ ("name", JVal.str g.name),
        ("match", JVal.str g.matchPattern),
        ("order", JVal.num g.order) ])

/-- The authored override entries of the import-order-aware legacy variant. -/
def orderedOverridesList (coreModules : List (String × Bool))
    (manifest : Option PackageManifest) : List (String × JVal) :=
  [ ("prefer-array-literal", JVal.arr
      [ JVal.bool true, JVal.obj [("allow-size-argument", JVal.bool true)] ]),
    ("align", JVal.bool false),
    ("increment-decrement", JVal.bool false),
    ("whitespace", JVal.arr
      [ JVal.bool true, JVal.str "check-branch", JVal.str "check-decl",
        JVal.str "check-operator", JVal.str "check-preblock",
        JVal.str "check-separator", JVal.str "check-module" ]),
    ("trailing-comma", JVal.arr
      [ JVal.bool true,
        JVal.obj
          [ ("esSpecCompliant", JVal.bool true),
            ("multiline", JVal.obj
              [ ("objects", JVal.str "always"),
                ("arrays", JVal.str "always"),
                ("imports", JVal.str "always"),
                ("exports", JVal.str "always"),
                ("typeLiterals", JVal.str "always") ]),
            ("singleline", JVal.str "never") ] ]),
    ("max-line-length", JVal.bool false),
    ("ter-max-len", JVal.arr
      [ JVal.bool true, JVal.num 120, JVal.num 2,
        JVal.obj
          [ ("ignoreUrls", JVal.bool true),
            ("ignoreComments", JVal.bool true),
            ("ignoreRegExpLiterals", JVal.bool true),
            ("ignoreStrings", JVal.bool true),
            ("ignoreTemplateLiterals", JVal.bool true) ] ]),
    ("function-name", JVal.arr
      [ JVal.bool true,
        JVal.obj
          [ ("function-regex", JVal.regex "^[a-zA-Z$][a-zA-Z\\d]+$"),
            ("method-regex", JVal.regex "^[a-z$][a-zA-Z\\d]+$"),
            ("private-method-regex", JVal.regex "^[a-z$][a-zA-Z\\d]+$"),
            ("protected-method-regex", JVal.regex "^[a-z$][a-zA-Z\\d]+$"),
            ("static-method-regex", JVal.regex "^[a-z$][a-zA-Z\\d]+$") ] ]),
    ("variable-name", JVal.bool false),
    ("no-this-assignment", JVal.arr
      [ JVal.bool true, JVal.obj [("allow-destructuring", JVal.bool true)] ]),
    ("import-name", JVal.bool false),
    ("object-shorthand-properties-first", JVal.bool false),
    ("ter-prefer-arrow-callback", JVal.arr
      [ JVal.bool true, JVal.obj [("allowNamedFunctions", JVal.bool true)] ]),
    ("ter-arrow-parens", JVal.bool false),
    ("no-boolean-literal-compare", JVal.bool false),
    ("semicolon", JVal.arr
      [ JVal.bool true, JVal.str "always", JVal.str "ignore-bound-class-methods" ]),
    ("prefer-template", JVal.arr [JVal.bool true, JVal.str "allow-single-concat"]),
    ("jsx-no-multiline-js", JVal.bool false),
    ("jsx-no-lambda", JVal.bool false),
    ("jsx-boolean-value", JVal.bool false),
    ("jsx-wrap-multiline", JVal.bool false),
    ("no-console", JVal.bool true),
    ("no-unexpected-multiline", JVal.bool true),
    ("ter-arrow-body-style", JVal.arr [JVal.bool true, JVal.str "as needed"]),
    ("no-for-in-array", JVal.bool true),
    ("no-return-await", JVal.bool true),
    ("no-unused", JVal.arr [JVal.bool true, JVal.str "ignore-parameters"]),
    ("ordered-imports", JVal.arr
      [ JVal.bool true,
        JVal.obj
          [ ("named-imports-order", JVal.str "lowercase-last"),
            ("grouped-imports", JVal.bool true),
            ("groups", importGroupsJVal coreModules manifest) ] ]),
    ("react-hooks-nesting", JVal.bool true) ]

/-- Merged rules of the import-order-aware legacy variant:
`Object.assign(\x7b\x7d, rulesAirbnb, rulesReact, overrides)`. -/
def orderedRules (rulesAirbnb rulesReact : RulesMap)
    (coreModules : List (String × Bool)) (manifest : Option PackageManifest) : RulesMap :=
  objAssign (objAssign rulesAirbnb rulesReact)
    (toMap (orderedOverridesList coreModules manifest))

/-! ## A small model of the JS regex dialect used by the import groups

The produced group patterns use only literal characters, backslash escapes,
`.`, groups, alternation, a leading `^` anchor and `$`. The model parses such
a pattern and decides `RegExp.prototype.test` on concrete strings. -/

/-- Regular expressions over characters, covering the constructs appearing in
the generated import-group patterns (no repetition operators are needed). -/
inductive RE where
  | eps : RE
  | lit (c : Char) : RE
  | dot : RE
  /-- The `$` anchor: matches only at the end of the input. -/
  | eos : RE
  | cat (a b : RE) : RE
  | alt (a b : RE) : RE

/-- All remainders of the input after matching a prefix against the regex. -/
def reMatch : RE → List Char → List (List Char)
  | RE.eps, s => [s]
  | RE.lit c, [] => (fun _ => []) c
  | RE.lit c, x :: xs => if x == c then [xs] else []
  | RE.dot, [] => []
  | RE.dot, _ :: xs => [xs]
  | RE.eos, s => if s.isEmpty then [s] else []
  | RE.cat a b, s => (reMatch a s).flatMap (reMatch b)
  | RE.alt a b, s => reMatch a s ++ reMatch b s

/-- Fuel-indexed recursive-descent pattern reader. Level 0 reads an
alternation, level 1 a concatenation, any other level a single atom. -/
def parseRE : Nat → Nat → List Char → Option (RE × List Char)
  | 0, _, _ => none
  | Nat.succ fuel, 0, cs =>
    match parseRE fuel 1 cs with
    | none => none
    | some (r1, rest) =>
      match rest with
      | '|' :: rest2 =>
        match parseRE fuel 0 rest2 with
        | none => none
        | some (r2, rest3) => some (RE.alt r1 r2, rest3)
      | _ => some (r1, rest)
  | Nat.succ fuel, 1, cs =>
    match cs with
    | [] => some (RE.eps, [])
    | ')' :: _ => some (RE.eps, cs)
    | '|' :: _ => some (RE.eps, cs)
    | _ =>
      match parseRE fuel 2 cs with
      | none => none
      | some (a, rest) =>
        match parseRE fuel 1 rest with
        | none => none
        | some (b, rest2) => some (RE.cat a b, rest2)
  | Nat.succ fuel, _, cs =>
    match cs with
    | '(' :: rest =>
      match parseRE fuel 0 rest with
      | some (r, ')' :: rest2) => some (r, rest2)
      | _ => none
    | '\\' :: c :: rest => some (RE.lit c, rest)
    | ['\\'] => none
    | '.' :: rest => some (RE.dot, rest)
    | '$' :: rest => some (RE.eos, rest)
    | '^' :: _ => none
    | '*' :: _ => none
    | '+' :: _ => none
    | '?' :: _ => none
    | '[' :: _ => none
    | c :: rest => some (RE.lit c, rest)
    | [] => none

/-- Parse a whole pattern: an optional leading `^` anchor followed by an
alternation consuming the remaining characters. -/
def jsRegexParse (pattern : String) : Option (Bool × RE) :=
  let cs := pattern.toList
  match cs with
  | '^' :: rest =>
    match parseRE (4 * (rest.length + 1)) 0 rest with
    | some (r, []) => some (true, r)
    | _ => none
  | _ =>
    match parseRE (4 * (cs.length + 1)) 0 cs with
    | some (r, []) => some (false, r)
    | _ => none

/-- Decide `new RegExp(pattern).test(input)` for the supported dialect: an
anchored pattern must match a prefix of the input, an unanchored one a
substring starting at any position. -/
def jsRegexTest (pattern input : String) : Bool :=
  match jsRegexParse pattern with
  | none => false
  | some (anchored, r) =>
    if anchored then !(reMatch r input.toList).isEmpty
    else input.toList.tails.any fun t => !(reMatch r t).isEmpty

/-! ## ESLint flat-config composer (`src/eslint.ts`)

`customize` builds an ordered list of flat-config fragments from an options
record. Rule sets, globals objects and the flat config imported from external
plugin packages are not authored in this repository; they enter the model as
an `Externals` record of parameters, placed in the fragments exactly where
the source spreads or references them. -/

/-- The `console` option values. -/
inductive ConsoleOpt where
  | ban : ConsoleOpt
  | banLog : ConsoleOpt
  | allow : ConsoleOpt

/-- The `indent` option: a number of spaces or the string `'tab'`. -/
inductive IndentOpt where
  | spaces (n : Nat) : IndentOpt
  | tab : IndentOpt

/-- The `indent` option as the JSON value passed to the indent rules. -/
def indentJVal : IndentOpt → JVal
  | IndentOpt.spaces n => JVal.num n
  | IndentOpt.tab => JVal.str "tab"

/-- The `CustomizeOptions` record: every field optional, defaults applied
inside `customize` as in the source destructuring. -/
structure CustomizeOptions where
  console : Option ConsoleOpt := none
  disableTypeChecked : Option (List String) := none
  indent : Option IndentOpt := none
  testsDir : Option String := none
  cypress : Option Bool := none
  jest : Option Bool := none
  mocha : Option Bool := none
  react : Option Bool := none
  vitest : Option Bool := none

/-- One ESLint flat-config fragment. `plugins` keeps only the plugin keys
(the provider objects are external modules); `languageOptions` and `settings`
are kept as JSON values with external objects inlined from `Externals`. -/
structure Fragment where
  name : Option String := none
  ignores : List String := []
  files : List String := []
  languageOptions : JVal := JVal.null
  plugins : List String := []
  settings : JVal := JVal.null
  rules : List (String × JVal) := []

/-- Data imported from external packages (recommended rule sets, globals,
plugin flat configs). The composer only places these values; their content is
owned by the external packages. -/
structure Externals where
  jsRecommendedRules : List (String × JVal) := []
  tsEslintRecommendedOverrideRules : List (String × JVal) := []
  tsRecommendedRules : List (String × JVal) := []
  nodeGlobals : JVal := JVal.null
  browserGlobals : JVal := JVal.null
  jestGlobals : List (String × JVal) := []
  mochaGlobals : JVal := JVal.null
  vitestEnvGlobals : JVal := JVal.null
  reactRecommendedRules : List (String × JVal) := []
  jestRecommendedRules : List (String × JVal) := []
  vitestRecommendedRules : List (String × JVal) := []
  mochaRecommendedRules : List (String × JVal) := []
  cypressRecommendedRules : List (String × JVal) := []
  cypressRecommendedLanguageOptions : JVal := JVal.null
  cypressRecommendedPlugins : List String := []

/-- Externals instantiated with empty data, for evaluating the composer on
concrete inputs. -/
def noExternals : Externals := {}

/-- The `shared['no-unused-vars']` value reused for js and ts files. -/
def sharedNoUnusedVars : JVal :=
  JVal.arr
    [ JVal.str "error",
      JVal.obj [("varsIgnorePattern", JVal.str "^_"), ("args", JVal.str "none")] ]

/-- First element of the config array: the global ignore patterns. -/
def ignoresFragment : Fragment :=
  { ignores := ["node_modules", "build", "coverage", ".yalc", "vite.config.ts.*"] }

/-- The `recommended/js` fragment. -/
def recommendedJsFragment (ext : Externals) : Fragment :=
  { name := some "recommended/js",
    files := ["**/*.?(m|c)[jt]s?(x)"],
    rules := ext.jsRecommendedRules,
    languageOptions := JVal.obj [("globals", ext.nodeGlobals)],
    plugins := ["@stylistic"] }

/-- The `recommended/ts` fragment. -/
def recommendedTsFragment (ext : Externals) : Fragment :=
  { name := some "recommended/ts",
    files := ["**/*.?(m|c)ts?(x)"],
    languageOptions := JVal.obj
      [ ("parser", JVal.str "@typescript-eslint/parser"),
        ("parserOptions", JVal.obj [("project", JVal.bool true)]) ],
    plugins := ["@typescript-eslint", "import"],
    settings := JVal.obj
      [ ("import-x/resolver",
          JVal.obj [("typescript", JVal.obj [("alwaysTryTypes", JVal.bool true)])]) ],
    rules := ext.tsEslintRecommendedOverrideRules ++ ext.tsRecommendedRules }

/-- The `workaround-for-files-not-included-in-tsconfig` fragment. -/
def workaroundFragment (disableTypeChecked : List String) : Fragment :=
  { name := some "workaround-for-files-not-included-in-tsconfig",
    files := ["*.config.ts", "*.setup.ts"] ++ disableTypeChecked,
    languageOptions := JVal.obj [("parserOptions", JVal.obj [("project", JVal.null)])] }

/-- The `overrides/js` fragment. -/
def overridesJsFragment : Fragment :=
  { name := some "overrides/js",
    files := ["**/*.?(m|c)js?(x)"],
    rules :=
      [ ("no-unused-vars", sharedNoUnusedVars),
        ("camelcase", JVal.str "error"),
        ("radix", JVal.arr [JVal.str "error", JVal.str "as-needed"]),
        ("no-array-constructor", JVal.str "error"),
        ("no-var", JVal.str "error"),
        ("prefer-const", JVal.str "error"),
        ("prefer-rest-params", JVal.str "error"),
        ("prefer-spread", JVal.str "error") ] }

/-- The `overrides/ts` fragment. -/
def overridesTsFragment : Fragment :=
  { name := some "overrides/ts",
    files := ["**/*.?(m|c)ts?(x)"],
    rules :=
      [ ("@typescript-eslint/no-explicit-any", JVal.str "off"),
        ("@typescript-eslint/ban-ts-comment", JVal.str "off"),
        ("@typescript-eslint/no-unused-vars", sharedNoUnusedVars),
        ("@typescript-eslint/no-var-requires", JVal.str "off"),
        ("@typescript-eslint/ban-tslint-comment", JVal.str "error"),
        ("@typescript-eslint/naming-convention", JVal.arr
          [ JVal.str "error",
            JVal.obj
              [ ("selector", JVal.str "function"),
                ("format", JVal.arr [JVal.str "camelCase", JVal.str "PascalCase"]) ],
            JVal.obj
              [ ("selector", JVal.str "method"),
                ("format", JVal.arr [JVal.str "camelCase"]) ],
            JVal.obj
              [ ("selector", JVal.str "objectLiteralMethod"),
                ("format", JVal.arr [JVal.str "camelCase", JVal.str "snake_case"]),
                ("leadingUnderscore", JVal.str "allowDouble") ],
            JVal.obj
              [ ("selector", JVal.str "typeLike"),
                ("format", JVal.arr [JVal.str "PascalCase", JVal.str "UPPER_CASE"]) ],
            JVal.obj
              [ ("selector", JVal.str "import"),
                ("format", JVal.arr [JVal.str "camelCase", JVal.str "PascalCase"]) ] ]),
        ("@typescript-eslint/no-for-in-array", JVal.str "error") ] }

/-- The value `['error', \x7b allow: ['error', 'warn', 'info'] \x7d]` emitted
for `no-console` under the `ban-log` policy. -/
def banLogJVal : JVal :=
  JVal.arr
    [ JVal.str "error",
      JVal.obj
        [ ("allow", JVal.arr [JVal.str "error", JVal.str "warn", JVal.str "info"]) ] ]

/-- The conditionally spread `no-console` entry of the `overrides/js-ts`
fragment: nothing when the policy is `allow`, the ban-log value or plain
`'error'` otherwise. -/
def consoleRuleEntries : ConsoleOpt → List (String × JVal)
  | ConsoleOpt.allow => []
  | ConsoleOpt.banLog => [("no-console", banLogJVal)]
  | ConsoleOpt.ban => [("no-console", JVal.str "error")]

/-- The `overrides/js-ts` fragment (all files), parameterized by the indent
option and the effective console policy. -/
def overridesJsTsFragment (indent : IndentOpt) (consoleUsage : ConsoleOpt) : Fragment :=
  { name := some "overrides/js-ts",
    files := ["**/*.?(m|c)[jt]s?(x)"],
    plugins := ["import"],
    rules :=
      [ ("no-constant-condition", JVal.arr
          [JVal.str "error", JVal.obj [("checkLoops", JVal.bool false)]]),
        ("no-fallthrough", JVal.arr
          [JVal.str "error", JVal.obj [("commentPattern", JVal.str "fallthrough")]]),
        ("no-extra-semi", JVal.str "off"),
        ("no-mixed-spaces-and-tabs", JVal.str "off"),
        ("@stylistic/array-bracket-spacing", JVal.arr [JVal.str "error", JVal.str "never"]),
        ("@stylistic/block-spacing", JVal.str "error"),
        ("@stylistic/brace-style", JVal.arr
          [JVal.str "error", JVal.str "1tbs", JVal.obj [("allowSingleLine", JVal.bool true)]]),
        ("@stylistic/comma-dangle", JVal.arr
          [ JVal.str "error",
            JVal.obj
              [ ("arrays", JVal.str "always-multiline"),
                ("objects", JVal.str "always-multiline"),
                ("imports", JVal.str "always-multiline"),
                ("exports", JVal.str "always-multiline"),
                ("functions", JVal.str "only-multiline"),
                ("enums", JVal.str "always-multiline"),
                ("generics", JVal.str "only-multiline"),
                ("tuples", JVal.str "only-multiline") ] ]),
        ("@stylistic/comma-spacing", JVal.str "error"),
        ("@stylistic/computed-property-spacing", JVal.arr [JVal.str "error", JVal.str "never"]),
        ("@stylistic/eol-last", JVal.str "error"),
        ("@stylistic/func-call-spacing", JVal.str "error"),
        ("@stylistic/generator-star-spacing", JVal.arr [JVal.str "error", JVal.str "before"]),
        ("@stylistic/indent", JVal.arr
          [ JVal.str "error", indentJVal indent,
            JVal.obj
              [ ("SwitchCase", JVal.num 1),
                ("CallExpression", JVal.obj [("arguments", JVal.str "off")]),
                ("ignoredNodes", JVal.arr
                  [ JVal.str "PropertyDefinition[decorators]",
                    JVal.str "FunctionExpression[params]:has(Identifier[decorators])",
                    JVal.str "TSUnionType",
                    JVal.str "TSIntersectionType",
                    JVal.str "TSTypeParameterInstantiation",
                    JVal.str "TSInterfaceHeritage",
                    JVal.str "ConditionalExpression *",
                    JVal.str "ArrowFunctionExpression",
                    JVal.str "TemplateLiteral *",
                    JVal.str "JSXElement",
                    JVal.str "JSXElement > *",
                    JVal.str "JSXAttribute",
                    JVal.str "JSXIdentifier",
                    JVal.str "JSXNamespacedName",
                    JVal.str "JSXMemberExpression",
                    JVal.str "JSXSpreadAttribute",
                    JVal.str "JSXExpressionContainer",
                    JVal.str "JSXOpeningElement",
                    JVal.str "JSXClosingElement",
                    JVal.str "JSXFragment",
                    JVal.str "JSXOpeningFragment",
                    JVal.str "JSXClosingFragment",
                    JVal.str "JSXText",
                    JVal.str "JSXEmptyExpression",
                    JVal.str "JSXSpreadChild" ]) ] ]),
        ("@stylistic/key-spacing", JVal.str "error"),
        ("@stylistic/keyword-spacing", JVal.str "error"),
        ("@stylistic/max-len", JVal.arr
          [ JVal.str "error", JVal.num 120,
            JVal.obj
              [ ("ignoreComments", JVal.bool true),
                ("ignoreRegExpLiterals", JVal.bool true),
                ("ignoreStrings", JVal.bool true),
                ("ignoreTemplateLiterals", JVal.bool true),
                ("ignoreUrls", JVal.bool true) ] ]),
        ("@stylistic/member-delimiter-style", JVal.str "error"),
        ("@stylistic/no-extra-semi", JVal.str "error"),
        ("@stylistic/no-mixed-spaces-and-tabs", JVal.str "error"),
        ("@stylistic/no-multiple-empty-lines", JVal.arr
          [ JVal.str "error",
            JVal.obj [("max", JVal.num 1), ("maxEOF", JVal.num 0), ("maxBOF", JVal.num 0)] ]),
        ("@stylistic/no-trailing-spaces", JVal.str "error"),
        ("@stylistic/no-whitespace-before-property", JVal.str "error"),
        ("@stylistic/object-curly-spacing", JVal.arr [JVal.str "error", JVal.str "always"]),
        ("@stylistic/quote-props", JVal.arr [JVal.str "error", JVal.str "as-needed"]),
        ("@stylistic/quotes", JVal.arr
          [ JVal.str "error", JVal.str "single",
            JVal.obj [("allowTemplateLiterals", JVal.bool true), ("avoidEscape", JVal.bool true)] ]),
        ("@stylistic/rest-spread-spacing", JVal.arr [JVal.str "error", JVal.str "never"]),
        ("@stylistic/semi", JVal.str "error"),
        ("@stylistic/semi-spacing", JVal.str "error"),
        ("@stylistic/space-before-blocks", JVal.str "error"),
        ("@stylistic/space-before-function-paren", JVal.arr
          [ JVal.str "error",
            JVal.obj
              [ ("anonymous", JVal.str "always"),
                ("named", JVal.str "never"),
                ("asyncArrow", JVal.str "always") ] ]),
        ("@stylistic/space-in-parens", JVal.str "error"),
        ("@stylistic/space-infix-ops", JVal.str "error"),
        ("@stylistic/spaced-comment", JVal.arr
          [ JVal.str "error", JVal.str "always",
            JVal.obj
              [ ("markers", JVal.arr [JVal.str "/", JVal.str ","]),
                ("exceptions", JVal.arr [JVal.str "*"]) ] ]),
        ("@stylistic/switch-colon-spacing", JVal.str "error"),
        ("@stylistic/template-curly-spacing", JVal.arr [JVal.str "error", JVal.str "never"]),
        ("@stylistic/template-tag-spacing", JVal.arr [JVal.str "error", JVal.str "never"]),
        ("@stylistic/yield-star-spacing", JVal.arr [JVal.str "error", JVal.str "before"]),
        ("curly", JVal.arr [JVal.str "error", JVal.str "multi-line"]),
        ("eqeqeq", JVal.str "error"),
        ("import/no-duplicates", JVal.arr
          [JVal.str "error", JVal.obj [("prefer-inline", JVal.bool true)]]),
        ("import/order", JVal.arr
          [ JVal.str "error",
            JVal.obj
              [ ("alphabetize", JVal.obj
                  [("caseInsensitive", JVal.bool true), ("order", JVal.str "asc")]),
                ("newlines-between", JVal.str "always"),
                ("groups", JVal.arr
                  [ JVal.str "builtin", JVal.str "external", JVal.str "internal",
                    JVal.str "parent", JVal.arr [JVal.str "sibling", JVal.str "index"] ]),
                ("distinctGroup", JVal.bool true),
                ("pathGroupsExcludedImportTypes", JVal.arr []),
                ("pathGroups", JVal.arr
                  [ JVal.obj
                      [ ("pattern", JVal.str "~**/**"),
                        ("group", JVal.str "internal"),
                        ("position", JVal.str "before") ] ]) ] ]),
        ("no-else-return", JVal.str "error"),
        ("no-eval", JVal.str "error"),
        ("no-new-func", JVal.str "error"),
        ("no-new-wrappers", JVal.str "error"),
        ("no-param-reassign", JVal.str "error"),
        ("object-shorthand", JVal.str "error"),
        ("one-var", JVal.arr [JVal.str "error", JVal.str "never"]),
        ("prefer-arrow-callback", JVal.arr
          [JVal.str "error", JVal.obj [("allowNamedFunctions", JVal.bool true)]]) ]
      ++ consoleRuleEntries consoleUsage }

/-- The `react/tsx` fragment (pushed only when `react` is enabled). -/
def reactTsxFragment : Fragment :=
  { name := some "react/tsx",
    files := ["**/*.?(m|c)tsx"],
    rules :=
      [ ("@typescript-eslint/ban-types", JVal.arr
          [ JVal.str "error",
            JVal.obj
              [ ("extendDefaults", JVal.bool true),
                ("types", JVal.obj [("\x7b\x7d", JVal.bool false)]) ] ]) ] }

/-- The `react/jsx-tsx` fragment (pushed only when `react` is enabled). -/
def reactJsxTsxFragment (ext : Externals) (indent : IndentOpt) : Fragment :=
  { name := some "react/jsx-tsx",
    files := ["**/*.?(m|c)[jt]sx"],
    languageOptions := JVal.obj
      [ ("parserOptions", JVal.obj [("ecmaFeatures", JVal.obj [("jsx", JVal.bool true)])]),
        ("globals", ext.browserGlobals) ],
    plugins := ["check-file", "react", "react-hooks"],
    settings := JVal.obj [("react", JVal.obj [("version", JVal.str "detect")])],
    rules :=
      [ ("@stylistic/jsx-child-element-spacing", JVal.str "error"),
        ("@stylistic/jsx-closing-bracket-location", JVal.arr
          [JVal.str "error", JVal.str "line-aligned"]),
        ("@stylistic/jsx-closing-tag-location", JVal.str "error"),
        ("@stylistic/jsx-curly-brace-presence", JVal.arr
          [JVal.str "error", JVal.obj [("propElementValues", JVal.str "always")]]),
        ("@stylistic/jsx-curly-spacing", JVal.str "error"),
        ("@stylistic/jsx-equals-spacing", JVal.str "error"),
        ("@stylistic/jsx-first-prop-new-line", JVal.str "error"),
        ("@stylistic/jsx-function-call-newline", JVal.str "error"),
        ("@stylistic/jsx-indent", JVal.arr [JVal.str "error", indentJVal indent]),
        ("@stylistic/jsx-indent-props", JVal.arr [JVal.str "error", indentJVal indent]),
        ("@stylistic/jsx-props-no-multi-spaces", JVal.str "error"),
        ("@stylistic/jsx-self-closing-comp", JVal.str "error"),
        ("@stylistic/jsx-tag-spacing", JVal.arr
          [ JVal.str "error",
            JVal.obj
              [ ("beforeSelfClosing", JVal.str "proportional-always"),
                ("beforeClosing", JVal.str "proportional-always") ] ]),
        ("@stylistic/jsx-wrap-multilines", JVal.str "error") ]
      ++ ext.reactRecommendedRules ++
      [ ("react/jsx-no-bind", JVal.arr
          [JVal.str "error", JVal.obj [("allowArrowFunctions", JVal.bool true)]]),
        ("react/jsx-no-useless-fragment", JVal.arr
          [JVal.str "error", JVal.obj [("allowExpressions", JVal.bool true)]]),
        ("react-hooks/rules-of-hooks", JVal.str "error"),
        ("react-hooks/exhaustive-deps", JVal.str "error") ] }

/-- The always-pushed `file-naming-conventions` fragment. -/
def fileNamingFragment : Fragment :=
  { name := some "file-naming-conventions",
    plugins := ["check-file"],
    rules :=
      [ ("check-file/filename-naming-convention", JVal.arr
          [ JVal.str "error",
            JVal.obj
              [ ("**/!(index|routes|use*|with*).?(m|c)[jt]sx", JVal.str "PASCAL_CASE"),
                ("**/(use|with)*.?(m|c)[jt]sx", JVal.str "CAMEL_CASE"),
                ("**/*.less", JVal.str "CAMEL_CASE") ],
            JVal.obj [("ignoreMiddleExtensions", JVal.bool true)] ]) ] }

/-- Test-file globs used by the jest and vitest fragments: the tests
directory plus the fixed `__tests__` folder and `*.spec.*`/`*.test.*`
filename patterns. -/
def testFilesJsTs (testsDir : String) : List String :=
  [ testsDir ++ "/**/*.?(c|m)[jt]s?(x)",
    "**/__tests__/**/*.?(c|m)[jt]s?(x)",
    "**/*.\x7bspec,test\x7d.?(c|m)[jt]s?(x)" ]

/-- Test-file globs used by the mocha and cypress fragments (no `x` suffix). -/
def testFilesJsTsNoX (testsDir : String) : List String :=
  [ testsDir ++ "/**/*.?(c|m)[jt]s",
    "**/__tests__/**/*.?(c|m)[jt]s",
    "**/*.\x7bspec,test\x7d.?(c|m)[jt]s" ]

/-- The `jest` fragment (pushed only when `jest` is enabled). -/
def jestFragment (ext : Externals) (testsDir : String) : Fragment :=
  { name := some "jest",
    files := testFilesJsTs testsDir,
    languageOptions := JVal.obj
      [ ("globals", JVal.obj
          (ext.jestGlobals ++
            [ ("DB", JVal.str "readonly"),
              ("GQL", JVal.str "readonly"),
              ("Setup", JVal.str "readonly"),
              ("app", JVal.str "readonly") ])) ],
    plugins := ["jest"],
    rules := ext.jestRecommendedRules ++
      [ ("jest/expect-expect", JVal.str "off"),
        ("jest/no-alias-methods", JVal.str "off"),
        ("jest/no-conditional-expect", JVal.str "off"),
        ("jest/no-disabled-tests", JVal.str "off"),
        ("jest/no-standalone-expect", JVal.arr
          [ JVal.str "error",
            JVal.obj
              [ ("additionalTestBlockFunctions", JVal.arr
                  [ JVal.str "beforeAll", JVal.str "beforeEach",
                    JVal.str "afterEach", JVal.str "afterAll",
                    JVal.str "testif", JVal.str "itif",
                    JVal.str "testskipif", JVal.str "itskipif" ]) ] ]),
        ("jest/valid-title", JVal.arr
          [ JVal.str "error",
            JVal.obj
              [ ("ignoreTypeOfDescribeName", JVal.bool true),
                ("ignoreTypeOfTestName", JVal.bool true) ] ]),
        ("no-console", JVal.str "error") ] }

/-- The `vitest` fragment (pushed only when `vitest` is enabled). -/
def vitestFragment (ext : Externals) (testsDir : String) : Fragment :=
  { name := some "vitest",
    files := testFilesJsTs testsDir,
    languageOptions := JVal.obj [("globals", ext.vitestEnvGlobals)],
    plugins := ["vitest"],
    rules := ext.vitestRecommendedRules ++
      [ ("vitest/valid-title", JVal.arr
          [JVal.str "error", JVal.obj [("ignoreTypeOfDescribeName", JVal.bool true)]]),
        ("vitest/prefer-to-be", JVal.str "off"),
        ("vitest/no-focused-tests", JVal.str "error"),
        ("no-console", JVal.str "error") ] }

/-- The `mocha` fragment (pushed when `mocha` or `cypress` is enabled). -/
def mochaFragment (ext : Externals) (testsDir : String) : Fragment :=
  { name := some "mocha",
    files := testFilesJsTsNoX testsDir,
    languageOptions := JVal.obj [("globals", ext.mochaGlobals)],
    plugins := ["mocha"],
    rules := ext.mochaRecommendedRules ++
      [ ("mocha/no-exclusive-tests", JVal.str "error"),
        ("mocha/no-skipped-tests", JVal.str "off"),
        ("mocha/no-setup-in-describe", JVal.str "off"),
        ("prefer-arrow-callback", JVal.str "off"),
        ("mocha/prefer-arrow-callback", JVal.str "error") ] }

/-- The unnamed snapshot-folder ignore fragment pushed with the mocha one. -/
def snapshotsIgnoreFragment : Fragment :=
  { ignores := ["__snapshots__"] }

/-- The `mocha/ignore` fragment: helper files in the tests directory are not
test suites. -/
def mochaIgnoreFragment (testsDir : String) : Fragment :=
  { name := some "mocha/ignore",
    files := [testsDir ++ "/**/_*", testsDir ++ "/**/*.skip.*"],
    rules := [("mocha/no-exports", JVal.str "off")] }

/-- The `cypress` fragment (pushed only when `cypress` is enabled). The
spread of the external recommended flat config contributes its plugins,
language options and rules. -/
def cypressFragment (ext : Externals) (testsDir : String) : Fragment :=
  { name := some "cypress",
    files := testFilesJsTsNoX testsDir,
    languageOptions := ext.cypressRecommendedLanguageOptions,
    plugins := ext.cypressRecommendedPlugins,
    rules := ext.cypressRecommendedRules ++
      [ ("mocha/no-mocha-arrows", JVal.str "off") ] }

/-- The composer: the base fragments, then the conditionally pushed react
pair, the naming-convention fragment, and the test-framework fragments, in
source order. -/
def customize (ext : Externals) (options : CustomizeOptions) : List Fragment :=
  let disableTypeChecked := options.disableTypeChecked.getD []
  let indent := options.indent.getD (IndentOpt.spaces 2)
  let testsDir := options.testsDir.getD "\x7bspec,test,tests\x7d"
  let cypress := options.cypress.getD false
  let jest := options.jest.getD false
  let mocha := options.mocha.getD false
  let react := options.react.getD false
  let vitest := options.vitest.getD false
  let consoleUsage := options.console.getD
    (if react then ConsoleOpt.banLog else ConsoleOpt.allow)
  ignoresFragment ::
  recommendedJsFragment ext ::
  recommendedTsFragment ext ::
  workaroundFragment disableTypeChecked ::
  overridesJsFragment ::
  overridesTsFragment ::
  overridesJsTsFragment indent consoleUsage ::
  ((if react then [reactTsxFragment, reactJsxTsxFragment ext indent] else [])
    ++ [fileNamingFragment]
    ++ (if jest then [jestFragment ext testsDir] else [])
    ++ (if vitest then [vitestFragment ext testsDir] else [])
    ++ (if mocha || cypress then
          [ mochaFragment ext testsDir, snapshotsIgnoreFragment,
            mochaIgnoreFragment testsDir ]
        else [])
    ++ (if cypress then [cypressFragment ext testsDir] else []))

/-- Concrete options record enabling only the cypress flag. -/
def onlyCypressOpts : CustomizeOptions := { cypress := some true }

/-- Concrete options record enabling only the mocha flag. -/
def onlyMochaOpts : CustomizeOptions := { mocha := some true }

/-! ## Helper lemmas: fragment observables -/

@[simp] theorem ignoresFragment_name : ignoresFragment.name = none := rfl

@[simp] theorem recommendedJsFragment_name (ext : Externals) :
    (recommendedJsFragment ext).name = some "recommended/js" := rfl

@[simp] theorem recommendedTsFragment_name (ext : Externals) :
    (recommendedTsFragment ext).name = some "recommended/ts" := rfl

@[simp] theorem workaroundFragment_name (d : List String) :
    (workaroundFragment d).name = some "workaround-for-files-not-included-in-tsconfig" := rfl

@[simp] theorem overridesJsFragment_name : overridesJsFragment.name = some "overrides/js" := rfl

@[simp] theorem overridesTsFragment_name : overridesTsFragment.name = some "overrides/ts" := rfl

@[simp] theorem overridesJsTsFragment_name (i : IndentOpt) (cu : ConsoleOpt) :
    (overridesJsTsFragment i cu).name = some "overrides/js-ts" := rfl

@[simp] theorem reactTsxFragment_name : reactTsxFragment.name = some "react/tsx" := rfl

@[simp] theorem reactJsxTsxFragment_name (ext : Externals) (i : IndentOpt) :
    (reactJsxTsxFragment ext i).name = some "react/jsx-tsx" := rfl

@[simp] theorem fileNamingFragment_name :
    fileNamingFragment.name = some "file-naming-conventions" := rfl

@[simp] theorem jestFragment_name (ext : Externals) (td : String) :
    (jestFragment ext td).name = some "jest" := rfl

@[simp] theorem vitestFragment_name (ext : Externals) (td : String) :
    (vitestFragment ext td).name = some "vitest" := rfl

@[simp] theorem mochaFragment_name (ext : Externals) (td : String) :
    (mochaFragment ext td).name = some "mocha" := rfl

@[simp] theorem snapshotsIgnoreFragment_name : snapshotsIgnoreFragment.name = none := rfl

@[simp] theorem mochaIgnoreFragment_name (td : String) :
    (mochaIgnoreFragment td).name = some "mocha/ignore" := rfl

@[simp] theorem cypressFragment_name (ext : Externals) (td : String) :
    (cypressFragment ext td).name = some "cypress" := rfl

@[simp] theorem jestFragment_files (ext : Externals) (td : String) :
    (jestFragment ext td).files = testFilesJsTs td := rfl

@[simp] theorem vitestFragment_files (ext : Externals) (td : String) :
    (vitestFragment ext td).files = testFilesJsTs td := rfl

@[simp] theorem mochaFragment_files (ext : Externals) (td : String) :
    (mochaFragment ext td).files = testFilesJsTsNoX td := rfl

@[simp] theorem mochaIgnoreFragment_files (td : String) :
    (mochaIgnoreFragment td).files = [td ++ "/**/_*", td ++ "/**/*.skip.*"] := rfl

@[simp] theorem cypressFragment_files (ext : Externals) (td : String) :
    (cypressFragment ext td).files = testFilesJsTsNoX td := rfl

/-- The seventh element of every composed configuration is the `overrides/js-ts`
fragment, carrying the effective console policy. -/
theorem customize_get6 (ext : Externals) (o : CustomizeOptions) :
    (customize ext o).get? 6 =
      some (overridesJsTsFragment (o.indent.getD (IndentOpt.spaces 2))
        (o.console.getD (if o.react.getD false then ConsoleOpt.banLog else ConsoleOpt.allow))) := by
  rfl

/-- The `no-console` entry of the `overrides/js-ts` fragment is exactly what the
console policy dictates: absent for `allow`, the ban-log value for `banLog`,
plain `'error'` for `ban`. -/
theorem lookupRule_overridesJsTs_noConsole (i : IndentOpt) (cu : ConsoleOpt) :
    lookupRule (overridesJsTsFragment i cu).rules "no-console" =
      (match cu with
       | ConsoleOpt.allow => none
       | ConsoleOpt.banLog => some banLogJVal
       | ConsoleOpt.ban => some (JVal.str "error")) := by
  cases cu <;> rfl

/-- The jest fragment binds `no-console` to `'error'`, whatever the external
recommended rules contain (the authored entry comes last). -/
theorem lookupRule_jest_noConsole (ext : Externals) (td : String) :
    lookupRule (jestFragment ext td).rules "no-console" = some (JVal.str "error") := by
  simp only [jestFragment, lookupRule, List.foldl_append]
  rfl

/-- The vitest fragment binds `no-console` to `'error'`, whatever the external
recommended rules contain (the authored entry comes last). -/
theorem lookupRule_vitest_noConsole (ext : Externals) (td : String) :
    lookupRule (vitestFragment ext td).rules "no-console" = some (JVal.str "error") := by
  simp only [vitestFragment, lookupRule, List.foldl_append]
  rfl

/-! ## Claim theorems -/

/-- C1 counterexample: with only the cypress flag set (mocha unset, hence
defaulting to false) the composed configuration nevertheless contains a
fragment named `mocha`, so the mocha fragment is not present exactly when the
mocha flag is true. -/
theorem c1_mocha_fragment_without_mocha_flag :
    onlyCypressOpts.mocha = none
    ∧ (customize noExternals onlyCypressOpts).any (fun f => f.name == some "mocha") = true :=
  ⟨rfl, rfl⟩

/-- C1 (amended): for every options record, the react pair, jest, vitest and
cypress fragments are present exactly when the corresponding flag is set
(each defaulting to false); the mocha fragment is present exactly when mocha
or cypress is set; and the sequence length is determined by the flags as
8 + 2·react + jest + vitest + 3·(mocha ∨ cypress) + cypress. -/
theorem c1_optional_fragment_presence_amended (ext : Externals) (o : CustomizeOptions) :
    ((customize ext o).length =
      8 + (if o.react.getD false then 2 else 0) + (if o.jest.getD false then 1 else 0)
        + (if o.vitest.getD false then 1 else 0)
        + (if o.mocha.getD false || o.cypress.getD false then 3 else 0)
        + (if o.cypress.getD false then 1 else 0))
    ∧ ((customize ext o).any (fun f => f.name == some "react/tsx") = o.react.getD false)
    ∧ ((customize ext o).any (fun f => f.name == some "react/jsx-tsx") = o.react.getD false)
    ∧ ((customize ext o).any (fun f => f.name == some "jest") = o.jest.getD false)
    ∧ ((customize ext o).any (fun f => f.name == some "vitest") = o.vitest.getD false)
    ∧ ((customize ext o).any (fun f => f.name == some "mocha") =
        (o.mocha.getD false || o.cypress.getD false))
    ∧ ((customize ext o).any (fun f => f.name == some "cypress") = o.cypress.getD false) := by
  cases hr : o.react.getD false <;> cases hj : o.jest.getD false <;>
    cases hv : o.vitest.getD false <;> cases hm : o.mocha.getD false <;>
    cases hc : o.cypress.getD false <;>
    simp [customize, hr, hj, hv, hm, hc]

/-- C2: when the console option is undefined, position 6 of the composed
configuration (the `overrides/js-ts` fragment) carries no `no-console` rule if
react is off, and carries `['error', allow error/warn/info]` if react is on. -/
theorem c2_default_console_policy (ext : Externals) (o : CustomizeOptions)
    (h : o.console = none) :
    ((customize ext o).get? 6).map (fun f => lookupRule f.rules "no-console") =
      some (if o.react.getD false then some banLogJVal else none) := by
  rw [customize_get6]
  cases hr : o.react.getD false <;> simp [h, hr, lookupRule_overridesJsTs_noConsole]

/-- C2 witness: the empty options record (console undefined, react defaulted
to false) yields no `no-console` entry in the `overrides/js-ts` fragment. -/
theorem c2_default_console_policy_witness :
    ((customize noExternals {}).get? 6).map (fun f => lookupRule f.rules "no-console") =
      some (if ({} : CustomizeOptions).react.getD false then some banLogJVal else none) :=
  c2_default_console_policy noExternals {} rfl

/-- C3 counterexample: with only the mocha flag enabled, the portion of the
output after the seven base fragments and the always-present naming fragment
consists of three fragments (`mocha`, an unnamed snapshot-ignore one, and
`mocha/ignore`), not exactly one fragment for the one enabled framework. -/
theorem c3_mocha_appends_three_fragments :
    ((customize noExternals onlyMochaOpts).drop 8).map (fun f => f.name) =
      [some "mocha", none, some "mocha/ignore"]
    ∧ ((customize noExternals onlyMochaOpts).drop 8).length ≠ 1 :=
  ⟨rfl, by decide⟩

/-- C3 (amended): after the seven base and override fragments, the composer
appends, in order: the react pair iff the react flag is set, the
file-naming-convention fragment always, the jest fragment iff jest, the
vitest fragment iff vitest, a mocha trio (rules fragment, snapshot-ignore
fragment, helper-file override fragment) iff mocha or cypress, and the
cypress fragment iff cypress; every test fragment is scoped to globs built
from the testsDir option (default `\x7bspec,test,tests\x7d`) plus the fixed
`__tests__` folder and `*.spec.*`/`*.test.*` filename patterns. -/
theorem c3_fragment_order_amended (ext : Externals) (o : CustomizeOptions) :
    (((customize ext o).drop 7).map (fun f => f.name) =
      (if o.react.getD false then [some "react/tsx", some "react/jsx-tsx"] else [])
      ++ [some "file-naming-conventions"]
      ++ (if o.jest.getD false then [some "jest"] else [])
      ++ (if o.vitest.getD false then [some "vitest"] else [])
      ++ (if o.mocha.getD false || o.cypress.getD false then
            [some "mocha", none, some "mocha/ignore"] else [])
      ++ (if o.cypress.getD false then [some "cypress"] else []))
    ∧ (((customize ext o).filter (fun f => f.name == some "jest")).map (fun f => f.files) =
        if o.jest.getD false then
          [testFilesJsTs (o.testsDir.getD "\x7bspec,test,tests\x7d")] else [])
    ∧ (((customize ext o).filter (fun f => f.name == some "vitest")).map (fun f => f.files) =
        if o.vitest.getD false then
          [testFilesJsTs (o.testsDir.getD "\x7bspec,test,tests\x7d")] else [])
    ∧ (((customize ext o).filter (fun f => f.name == some "mocha")).map (fun f => f.files) =
        if o.mocha.getD false || o.cypress.getD false then
          [testFilesJsTsNoX (o.testsDir.getD "\x7bspec,test,tests\x7d")] else [])
    ∧ (((customize ext o).filter (fun f => f.name == some "mocha/ignore")).map (fun f => f.files) =
        if o.mocha.getD false || o.cypress.getD false then
          [[o.testsDir.getD "\x7bspec,test,tests\x7d" ++ "/**/_*",
            o.testsDir.getD "\x7bspec,test,tests\x7d" ++ "/**/*.skip.*"]] else [])
    ∧ (((customize ext o).filter (fun f => f.name == some "cypress")).map (fun f => f.files) =
        if o.cypress.getD false then
          [testFilesJsTsNoX (o.testsDir.getD "\x7bspec,test,tests\x7d")] else []) := by
  cases hr : o.react.getD false <;> cases hj : o.jest.getD false <;>
    cases hv : o.vitest.getD false <;> cases hm : o.mocha.getD false <;>
    cases hc : o.cypress.getD false <;>
    simp [customize, hr, hj, hv, hm, hc]

/-- C4: the dependency pattern for lodash/left-pad matches `lodash/fp` and
`left-pad` and rejects `lodash2`; but for a dependency name containing a dot
the builder emits a double backslash before the dot (the escaping slip), so
the resulting regex requires a literal backslash and fails to match the
dependency itself as a path prefix, while the singly-escaped pattern the spec
describes would match. -/
theorem c4_dependencies_regex_behavior :
    dependenciesRegexOf (some { dependencies := ["lodash", "left-pad"] }) =
      some "^(lodash|left-pad)(/|$)"
    ∧ jsRegexTest "^(lodash|left-pad)(/|$)" "lodash/fp" = true
    ∧ jsRegexTest "^(lodash|left-pad)(/|$)" "left-pad" = true
    ∧ jsRegexTest "^(lodash|left-pad)(/|$)" "lodash2" = false
    ∧ dependenciesRegexOf (some { dependencies := ["socket.io"] }) =
        some "^(socket\\\\.io)(/|$)"
    ∧ jsRegexTest "^(socket\\\\.io)(/|$)" "socket.io" = false
    ∧ jsRegexTest "^(socket\\\\.io)(/|$)" "socket.io/client" = false
    ∧ jsRegexTest "^(socket\\.io)(/|$)" "socket.io" = true
    ∧ jsRegexTest "^(socket\\.io)(/|$)" "socket.io/client" = true :=
  ⟨rfl, by decide, by decide, by decide, rfl, by decide, by decide, by decide, by decide⟩

/-- C5: with an absent manifest, or one declaring no dependencies, the import
group list omits the `dependencies` group while keeping the other five groups
in order, and with a nonempty dependency set the group is present. -/
theorem c5_absent_manifest_omits_dependencies_group (coreModules : List (String × Bool)) :
    ((importGroups coreModules none).map (fun g => g.name) =
      [ "aliased paths (which begin with tilde [~] in our convention)",
        "parent directories", "current directory", "built-in node modules",
        "absolute imports" ])
    ∧ ((importGroups coreModules (some {})).map (fun g => g.name) =
      [ "aliased paths (which begin with tilde [~] in our convention)",
        "parent directories", "current directory", "built-in node modules",
        "absolute imports" ])
    ∧ ((importGroups coreModules (some { dependencies := ["lodash"] })).map (fun g => g.name) =
      [ "aliased paths (which begin with tilde [~] in our convention)",
        "parent directories", "current directory", "built-in node modules",
        "dependencies", "absolute imports" ]) :=
  ⟨rfl, rfl, rfl⟩

/-- C6: whenever a rule key is defined by an imported base rule set and by the
authored override table, the merged map holds exactly the override value
(wholesale replacement), and in particular the `semicolon` key always carries
the authored `[true, 'always', 'ignore-bound-class-methods']` value. -/
theorem c6_override_table_precedence :
    (∀ (rulesAirbnb rulesReact : RulesMap) (coreModules : List (String × Bool))
        (manifest : Option PackageManifest) (k : String) (v : JVal),
      ((rulesAirbnb k).isSome = true ∨ (rulesReact k).isSome = true) →
      lookupRule (orderedOverridesList coreModules manifest) k = some v →
      orderedRules rulesAirbnb rulesReact coreModules manifest k = some v)
    ∧ (∀ (rulesAirbnb rulesReact : RulesMap) (coreModules : List (String × Bool))
        (manifest : Option PackageManifest),
      orderedRules rulesAirbnb rulesReact coreModules manifest "semicolon" =
        some (JVal.arr
          [JVal.bool true, JVal.str "always", JVal.str "ignore-bound-class-methods"])) := by
  constructor
  · intro A R cm man k v _ h2
    simp [orderedRules, objAssign, toMap, h2]
  · intro A R cm man
    rfl

/-- C6 witness: with a base rule set that defines every key (so in particular
`semicolon`), the merged map carries the authored `semicolon` value. -/
theorem c6_override_table_precedence_witness :
    orderedRules (fun _ => some (JVal.bool false)) (fun _ => none) [] none "semicolon" =
      some (JVal.arr
        [JVal.bool true, JVal.str "always", JVal.str "ignore-bound-class-methods"]) :=
  c6_override_table_precedence.1 (fun _ => some (JVal.bool false)) (fun _ => none) [] none
    "semicolon" _ (Or.inl rfl) rfl

/-- C7 counterexample: the exported formatter record holds no `arrowParens`
key, so it does not set an arrow-parens policy as claimed. -/
theorem c7_no_arrow_parens_setting : lookupRule prettierConfig "arrowParens" = none := rfl

/-- C7 (amended): the exported formatter configuration is a flat options
record setting a print width (100), a quote style (single quotes) and a
trailing-comma policy (`es5`); no arrow-parens policy is set, so the
downstream formatter default applies. -/
theorem c7_formatter_config_amended :
    lookupRule prettierConfig "printWidth" = some (JVal.num 100)
    ∧ lookupRule prettierConfig "singleQuote" = some (JVal.bool true)
    ∧ lookupRule prettierConfig "trailingComma" = some (JVal.str "es5")
    ∧ prettierConfig.all (fun p => isAtom p.2) = true
    ∧ lookupRule prettierConfig "arrowParens" = none :=
  ⟨rfl, rfl, rfl, rfl, rfl⟩

/-- C8: the legacy variant exports a single document whose `extends` lists the
two base config names, whose `rules` is the merged map, and whose `jsRules` is
the merged map with exactly the typescript-only keys removed; for instance the
authored `no-unused-variable` value survives in `rules` but is deleted from
`jsRules`, and `function-name` is deleted from `jsRules` whatever the base
rule sets contain. -/
theorem c8_legacy_document_shape (rulesAirbnb rulesReact : RulesMap) (k : String) :
    (legacyConfig rulesAirbnb rulesReact).extendsList = ["tslint-config-airbnb", "tslint-react"]
    ∧ (legacyConfig rulesAirbnb rulesReact).rules = legacyRules rulesAirbnb rulesReact
    ∧ ((legacyConfig rulesAirbnb rulesReact).jsRules k =
        if tsOnlyKeys.contains k then none else (legacyConfig rulesAirbnb rulesReact).rules k)
    ∧ (legacyConfig rulesAirbnb rulesReact).rules "no-unused-variable" = some (JVal.bool true)
    ∧ (legacyConfig rulesAirbnb rulesReact).jsRules "no-unused-variable" = none
    ∧ (legacyConfig rulesAirbnb rulesReact).jsRules "function-name" = none :=
  ⟨rfl, rfl, rfl, rfl, rfl, rfl⟩

/-- C9: the composer is a pure function of its input record (and the imported
external data): structurally identical inputs yield structurally identical
fragment sequences, with no hidden cross-invocation state. -/
theorem c9_customize_deterministic (ext : Externals) (o1 o2 : CustomizeOptions)
    (h : o1 = o2) :
    customize ext o1 = customize ext o2 := by
  rw [h]

/-- C9 witness: two invocations on the default options record agree. -/
theorem c9_customize_deterministic_witness :
    customize noExternals {} = customize noExternals {} :=
  c9_customize_deterministic noExternals {} {} rfl

/-- C10: for every options record, the jest fragment is present exactly when
jest is enabled and then carries `no-console: 'error'`, and likewise for the
vitest fragment — regardless of the caller's console option, so console usage
is banned in test files even when the general policy is `allow`. -/
theorem c10_test_fragments_ban_console (ext : Externals) (o : CustomizeOptions) :
    (((customize ext o).filter (fun f => f.name == some "jest")).map
        (fun f => lookupRule f.rules "no-console") =
      if o.jest.getD false then [some (JVal.str "error")] else [])
    ∧ (((customize ext o).filter (fun f => f.name == some "vitest")).map
        (fun f => lookupRule f.rules "no-console") =
      if o.vitest.getD false then [some (JVal.str "error")] else []) := by
  cases hr : o.react.getD false <;> cases hj : o.jest.getD false <;>
    cases hv : o.vitest.getD false <;> cases hm : o.mocha.getD false <;>
    cases hc : o.cypress.getD false <;>
    simp [customize, hr, hj, hv, hm, hc, lookupRule_jest_noConsole, lookupRule_vitest_noConsole]
